import Mathlib

/-!
Verification of the triage-wizard Rust backend (`src/backend-rust/src/claude_cli.rs`
and `src/backend-rust/src/main.rs`) against its natural-language specification.

The core under verification is the subprocess runner `run_claude_cli` and its
structured-output extractor, plus the per-endpoint defensive decoders
(`classify_bug`, `suggest_response`, `generate_response`, `refine_response`,
`generate_testpage`).

JSON values are modelled by an inductive `Json` type mirroring
`serde_json::Value` (number precision is irrelevant to every property proved
here, so numbers are `Int`).  The string-level JSON parser of the third-party
`serde_json` crate is abstracted as a parameter `parse : String → Option Json`;
everything the repository itself does with the parsed values — the envelope
decoding induced by the `ClaudeCliOutput` / `ClaudeResult` struct declarations,
the line scan, the two fallbacks, the error construction, and the defensive
field decoders — is embedded concretely.
-/

/-- JSON values, mirroring `serde_json::Value`.  Objects are association lists;
`serde_json` maps cannot contain duplicate keys, and lookup takes the first
binding. -/
inductive Json where
  | null : Json
  | bool : Bool → Json
  | num : Int → Json
  | str : String → Json
  | arr : List Json → Json
  | obj : List (String × Json) → Json
deriving Repr

/-- Key lookup in a JSON object's field list (first binding wins). -/
def jlookup (fields : List (String × Json)) (k : String) : Option Json :=
  match fields with
  | [] => none
  | (k2, v) :: rest => if k2 = k then some v else jlookup rest k

/-- `Value::get(key)`: `Some` iff the value is an object containing the key. -/
def Json.get? (j : Json) (k : String) : Option Json :=
  match j with
  | .obj fields => jlookup fields k
  | _ => none

/-- `Value::as_bool()`. -/
def Json.asBool : Json → Option Bool
  | .bool b => some b
  | _ => none

/-- `Value::as_str()`. -/
def Json.asStr : Json → Option String
  | .str s => some s
  | _ => none

/-- `Value::as_array()`. -/
def Json.asArray : Json → Option (List Json)
  | .arr l => some l
  | _ => none

/-- `Value::as_object()`. -/
def Json.asObject : Json → Option (List (String × Json))
  | .obj fields => some fields
  | _ => none

/-! ### Rust `str::lines` and blank-line detection -/

/-- Unicode `White_Space` property, as used by Rust `char::is_whitespace`. -/
def isRustWhitespace (c : Char) : Bool :=
  let n := c.toNat
  n = 0x9 || n = 0xA || n = 0xB || n = 0xC || n = 0xD || n = 0x20 ||
  n = 0x85 || n = 0xA0 || n = 0x1680 || (0x2000 ≤ n && n ≤ 0x200A) ||
  n = 0x2028 || n = 0x2029 || n = 0x202F || n = 0x205F || n = 0x3000

/-- `line.trim().is_empty()`: every character of the line is whitespace. -/
def isBlankLine (l : String) : Bool :=
  l.data.all isRustWhitespace

/-- Split a character list into newline-terminated pieces, keeping each
terminating newline (Rust `split_inclusive` on a newline character); a final
piece without terminator is kept, and the empty input yields no pieces. -/
def splitInclNL : List Char → List Char → List String
  | [], [] => []
  | [], acc => [String.mk acc.reverse]
  | c :: cs, acc =>
    if c = '\n' then String.mk (c :: acc).reverse :: splitInclNL cs []
    else splitInclNL cs (c :: acc)

/-- Strip one trailing CRLF or LF terminator from a piece, as Rust
`str::lines` does; a carriage return not followed by a line feed is kept. -/
def stripLineEnd (l : String) : String :=
  match l.data.reverse with
  | '\n' :: '\r' :: rest => String.mk rest.reverse
  | '\n' :: rest => String.mk rest.reverse
  | _ => l

/-- Rust `stdout.lines()`. -/
def rustLines (s : String) : List String :=
  (splitInclNL s.data []).map stripLineEnd

/-! ### The serde-derived envelope decoding

`claude_cli.rs` declares

* `struct ClaudeCliOutput { #[serde(rename = "type")] output_type: Option<String>,
  subtype: Option<String>, result: Option<ClaudeResult> }`
* `struct ClaudeResult { #[serde(rename = "type")] result_type: Option<String>,
  structured_output: Option<serde_json::Value> }`

serde derives: a struct decodes only from a JSON object; unknown keys are
ignored; an `Option<String>` field is `None` when the key is absent or null,
`Some s` for a string, and a decode error for any other value; an
`Option<ClaudeResult>` field is `None` when absent or null, decodes the nested
struct from an object, and errors on any other value; an
`Option<serde_json::Value>` field is `None` when absent or null and
`Some v` otherwise (never an error). -/

structure ClaudeResult where
  result_type : Option String
  structured_output : Option Json

structure ClaudeCliOutput where
  output_type : Option String
  subtype : Option String
  result : Option ClaudeResult

/-- Decode an `Option<String>` struct field from its (possibly absent) JSON
value: absent or null gives `None`, a string gives `Some`, anything else is a
decode error (outer `none`). -/
def decodeOptString : Option Json → Option (Option String)
  | none => some none
  | some .null => some none
  | some (.str s) => some (some s)
  | some _ => none

/-- Decode an `Option<serde_json::Value>` struct field: absent or null gives
`None`, anything else `Some` (never an error). -/
def decodeOptValue : Option Json → Option Json
  | none => none
  | some .null => none
  | some v => some v

/-- serde decoding of `ClaudeResult` from a JSON value. -/
def decodeClaudeResult (j : Json) : Option ClaudeResult :=
  match j with
  | .obj fields =>
    match decodeOptString (jlookup fields "type") with
    | none => none
    | some rt =>
      some { result_type := rt
           , structured_output := decodeOptValue (jlookup fields "structured_output") }
  | _ => none

/-- serde decoding of `ClaudeCliOutput` from a JSON value
(`serde_json::from_str::<ClaudeCliOutput>` composed after the string parse). -/
def decodeClaudeCliOutput (j : Json) : Option ClaudeCliOutput :=
  match j with
  | .obj fields =>
    match decodeOptString (jlookup fields "type") with
    | none => none
    | some t =>
      match decodeOptString (jlookup fields "subtype") with
      | none => none
      | some st =>
        match jlookup fields "result" with
        | none => some { output_type := t, subtype := st, result := none }
        | some .null => some { output_type := t, subtype := st, result := none }
        | some v =>
          match decodeClaudeResult v with
          | none => none
          | some r => some { output_type := t, subtype := st, result := some r }
  | _ => none

/-! ### The structured-output extractor (`run_claude_cli`, lines 99–141) -/

/-- What a single line of the scan loop contributes: `none` when the loop
`continue`s past the line (blank, fails to decode as the envelope, wrong
`type` tag, or no nested `structured_output`), `some v` when the loop
returns `Ok(v)` at this line. -/
def lineResult (parse : String → Option Json) (line : String) : Option Json :=
  if isBlankLine line then none
  else
    match (parse line).bind decodeClaudeCliOutput with
    | none => none
    | some parsed =>
      if parsed.output_type = some "result" then
        match parsed.result with
        | some r => r.structured_output
        | none => none
      else none

/-- The `for line in stdout.lines()` scan: first match wins. -/
def lineScan (parse : String → Option Json) : List String → Option Json
  | [] => none
  | l :: rest =>
    match lineResult parse l with
    | some v => some v
    | none => lineScan parse rest

/-- Steps 2 and 3 of the extractor: parse the entire captured text as one JSON
value; if it is an object, return the value under `structured_output` when
that key is present, otherwise return the object itself when one of the three
marker keys is present. -/
def wholeTextStep (parse : String → Option Json) (stdout : String) : Option Json :=
  match parse stdout with
  | none => none
  | some json =>
    match json.asObject with
    | none => none
    | some obj =>
      match (if (jlookup obj "structured_output").isSome
             then jlookup obj "structured_output" else none) with
      | some structured => some structured
      | none =>
        if (jlookup obj "ai_detected_str").isSome
            || (jlookup obj "final_response").isSome
            || (jlookup obj "suggested_response_id").isSome then
          some json
        else none

/-- The error-response shape of `main.rs`. -/
structure ErrorResponse where
  error : String
  details : Option String
deriving DecidableEq, Repr

/-- The extraction part of `run_claude_cli` (everything after a successful
zero-exit wait): line scan, then whole-text fallback, then direct-shape
fallback, then the definitive extraction error carrying the captured text. -/
def run_claude_cli_extract (parse : String → Option Json) (stdout : String) :
    Except ErrorResponse Json :=
  match lineScan parse (rustLines stdout) with
  | some v => .ok v
  | none =>
    match wholeTextStep parse stdout with
    | some v => .ok v
    | none =>
      .error { error := "Failed to parse Claude CLI output"
             , details := some ("Output: " ++ stdout) }


/-! ### The process runner (`run_claude_cli`, lines 44–97)

The OS-level effects (spawning, stdin write, wait) are abstracted by a
`CliEnv` oracle describing how the environment responds to this one
invocation, and the runner additionally produces a `RunTrace` recording the
observable side effects: which commands were handed to `spawn`, what was
written to the child's stdin, and whether the stdin handle was dropped
(closed). -/

/-- `std::process::Stdio` configuration of a child stream. -/
inductive StdioCfg where
  | piped : StdioCfg
  | inherited : StdioCfg
deriving DecidableEq, Repr

/-- A fully configured command, as built by lines 45–55. -/
structure ProcCommand where
  program : String
  args : List String
  stdin_cfg : StdioCfg
  stdout_cfg : StdioCfg
  stderr_cfg : StdioCfg
deriving DecidableEq, Repr

/-- The command built for one invocation: the `claude` binary, the fixed flag
sequence with model and schema spliced in, and all three streams piped. -/
def buildClaudeCommand (model schema : String) : ProcCommand :=
  { program := "claude"
  , args := ["-p", "--output-format", "json", "--model", model, "--json-schema", schema]
  , stdin_cfg := .piped
  , stdout_cfg := .piped
  , stderr_cfg := .piped }

/-- Oracle for the OS-level outcome of one invocation. -/
structure CliEnv where
  spawn_ok : Bool
  spawn_err : String
  write_ok : Bool
  write_err : String
  wait_ok : Bool
  wait_err : String
  status_success : Bool
  stdout : String
  stderr : String

/-- Observable side effects of one invocation. -/
structure RunTrace where
  spawn_attempts : List ProcCommand
  stdin_written : List String
  stdin_closed : Bool
deriving DecidableEq, Repr

/-- The trace of a call that never reached `spawn`. -/
def emptyTrace : RunTrace :=
  { spawn_attempts := [], stdin_written := [], stdin_closed := false }

/-- `run_claude_cli`: build the command, spawn, write the prompt to stdin and
drop the handle, wait, reject non-zero exit with the captured stderr, and
otherwise run the extractor on the captured stdout. -/
def run_claude_cli (env : CliEnv) (parse : String → Option Json)
    (prompt schema model : String) :
    Except ErrorResponse Json × RunTrace :=
  let cmd := buildClaudeCommand model schema
  if env.spawn_ok = false then
    (.error { error := "Failed to spawn claude CLI"
            , details := some ("Ensure \x27claude\x27 is installed and in PATH. Error: "
                ++ env.spawn_err) },
     { spawn_attempts := [cmd], stdin_written := [], stdin_closed := false })
  else if env.write_ok = false then
    (.error { error := "Failed to write to claude CLI"
            , details := some env.write_err },
     { spawn_attempts := [cmd], stdin_written := [], stdin_closed := true })
  else if env.wait_ok = false then
    (.error { error := "Failed to get claude CLI output"
            , details := some env.wait_err },
     { spawn_attempts := [cmd], stdin_written := [prompt], stdin_closed := true })
  else if env.status_success = false then
    (.error { error := "Claude CLI execution failed"
            , details := some env.stderr },
     { spawn_attempts := [cmd], stdin_written := [prompt], stdin_closed := true })
  else
    (run_claude_cli_extract parse env.stdout,
     { spawn_attempts := [cmd], stdin_written := [prompt], stdin_closed := true })

/-! ### Typed response shapes (`main.rs`) and the defensive decoders -/

structure TriageAction where
  action : String
  reason : String
deriving DecidableEq, Repr

structure ClassifyResponse where
  ai_detected_str : Bool
  ai_detected_test_attached : Bool
  crashstack_present : Bool
  fuzzing_testcase : Bool
  summary : String
  suggested_severity : Option String
  suggested_priority : Option String
  suggested_actions : List TriageAction
  triage_reasoning : Option String
  suggested_canned_id : Option String
  draft_response : Option String
  notes : Option Json

structure SuggestResponse where
  suggested_response_id : String
  draft_response : String
  reasoning : Option String
deriving DecidableEq, Repr

structure SuggestedAction where
  action : String
  reason : Option String
deriving DecidableEq, Repr

structure GenerateResponse where
  response_text : String
  suggested_actions : List SuggestedAction
  used_canned_ids : List String
  reasoning : String
deriving DecidableEq, Repr

structure RefineResponse where
  refined_response : String
  changes_made : List String
deriving DecidableEq, Repr

structure TestPageResponse where
  can_generate : Bool
  html_content : String
  reason : String
deriving DecidableEq, Repr

/-- One element of the classify `suggested_actions` array: dropped unless it
carries a string `action`; a missing or non-string `reason` defaults to the
empty string. -/
def decodeTriageAction (item : Json) : Option TriageAction :=
  match (item.get? "action").bind Json.asStr with
  | none => none
  | some action =>
    some { action := action
         , reason := ((item.get? "reason").bind Json.asStr).getD "" }

/-- The field-by-field decode of `classify_bug` (lines 163–228). -/
def classifyDecode (result : Json) : ClassifyResponse :=
  { ai_detected_str := ((result.get? "ai_detected_str").bind Json.asBool).getD false
  , ai_detected_test_attached :=
      ((result.get? "ai_detected_test_attached").bind Json.asBool).getD false
  , crashstack_present := ((result.get? "crashstack_present").bind Json.asBool).getD false
  , fuzzing_testcase := ((result.get? "fuzzing_testcase").bind Json.asBool).getD false
  , summary := ((result.get? "summary").bind Json.asStr).getD ""
  , suggested_severity := (result.get? "suggested_severity").bind Json.asStr
  , suggested_priority := (result.get? "suggested_priority").bind Json.asStr
  , suggested_actions :=
      (((result.get? "suggested_actions").bind Json.asArray).map
        (fun arr => arr.filterMap decodeTriageAction)).getD []
  , triage_reasoning := (result.get? "triage_reasoning").bind Json.asStr
  , suggested_canned_id :=
      ((result.get? "suggested_canned_id").bind Json.asStr).bind
        (fun s => if s.isEmpty then none else some s)
  , draft_response :=
      ((result.get? "draft_response").bind Json.asStr).bind
        (fun s => if s.isEmpty then none else some s)
  , notes := none }

/-- The field-by-field decode of `suggest_response` (lines 253–268). -/
def suggestDecode (result : Json) : SuggestResponse :=
  { suggested_response_id :=
      ((result.get? "suggested_response_id").bind Json.asStr).getD ""
  , draft_response := ((result.get? "draft_response").bind Json.asStr).getD ""
  , reasoning := (result.get? "reasoning").bind Json.asStr }

/-- One element of the generate `suggested_actions` array: dropped unless it
carries a string `action`; `reason` stays optional. -/
def decodeSuggestedAction (item : Json) : Option SuggestedAction :=
  match (item.get? "action").bind Json.asStr with
  | none => none
  | some action =>
    some { action := action, reason := (item.get? "reason").bind Json.asStr }

/-- The field-by-field decode of `generate_response` (lines 293–334). -/
def generateDecode (result : Json) : GenerateResponse :=
  { response_text := ((result.get? "response_text").bind Json.asStr).getD ""
  , suggested_actions :=
      (((result.get? "suggested_actions").bind Json.asArray).map
        (fun arr => arr.filterMap decodeSuggestedAction)).getD []
  , used_canned_ids :=
      (((result.get? "used_canned_ids").bind Json.asArray).map
        (fun arr => arr.filterMap Json.asStr)).getD []
  , reasoning := ((result.get? "reasoning").bind Json.asStr).getD "" }

/-- The field-by-field decode of `refine_response` (lines 361–379); a missing
or non-string `refined_response` falls back to the caller-supplied
`current_response`, not to the empty string. -/
def refineDecode (current_response : String) (result : Json) : RefineResponse :=
  { refined_response :=
      ((result.get? "refined_response").bind Json.asStr).getD current_response
  , changes_made :=
      (((result.get? "changes_made").bind Json.asArray).map
        (fun arr => arr.filterMap Json.asStr)).getD [] }

/-- The field-by-field decode of `generate_testpage` (lines 403–418). -/
def testpageDecode (result : Json) : TestPageResponse :=
  { can_generate := ((result.get? "can_generate").bind Json.asBool).getD false
  , html_content := ((result.get? "html_content").bind Json.asStr).getD ""
  , reason := ((result.get? "reason").bind Json.asStr).getD "" }

/-! ### Endpoint wrappers (`claude_cli.rs` public functions)

Each endpoint first demands the frontend-supplied prompt and schema
(`Option` — only absence is rejected), then runs `run_claude_cli` and decodes
the extracted value.  Unused domain parameters (`bug`, `canned_responses`,
`user_instruction`, `context`) are kept for signature fidelity. -/

/-- Error returned when the frontend supplied no prompt. -/
def missingPromptError : ErrorResponse :=
  { error := "Missing prompt from frontend"
  , details := some "Prompts are centralized in frontend/src/prompts.js" }

/-- Error returned when the frontend supplied no schema. -/
def missingSchemaError : ErrorResponse :=
  { error := "Missing schema from frontend"
  , details := some "Schemas are centralized in frontend/src/prompts.js" }

/-- Shared prompt/schema guard followed by the runner: exactly the
`ok_or_else(...)?` prologue every endpoint repeats, then `run_claude_cli`. -/
def guardedRun (env : CliEnv) (parse : String → Option Json) (model : String)
    (frontend_prompt frontend_schema : Option String) :
    Except ErrorResponse Json × RunTrace :=
  match frontend_prompt with
  | none => (.error missingPromptError, emptyTrace)
  | some prompt =>
    match frontend_schema with
    | none => (.error missingSchemaError, emptyTrace)
    | some schema => run_claude_cli env parse prompt schema model

/-- `classify_bug` (lines 146–231). -/
def classify_bug (env : CliEnv) (parse : String → Option Json) (bug : Json)
    (model : String) (frontend_prompt frontend_schema : Option String) :
    Except ErrorResponse ClassifyResponse × RunTrace :=
  let _ := bug
  match guardedRun env parse model frontend_prompt frontend_schema with
  | (.error e, t) => (.error e, t)
  | (.ok v, t) => (.ok (classifyDecode v), t)

/-- `suggest_response` (lines 235–271). -/
def suggest_response (env : CliEnv) (parse : String → Option Json) (bug : Json)
    (canned_responses : List Json) (model : String)
    (frontend_prompt frontend_schema : Option String) :
    Except ErrorResponse SuggestResponse × RunTrace :=
  let _ := bug
  let _ := canned_responses
  match guardedRun env parse model frontend_prompt frontend_schema with
  | (.error e, t) => (.error e, t)
  | (.ok v, t) => (.ok (suggestDecode v), t)

/-- `generate_response` (lines 275–337). -/
def generate_response (env : CliEnv) (parse : String → Option Json) (bug : Json)
    (options : Json) (model : String)
    (frontend_prompt frontend_schema : Option String) :
    Except ErrorResponse GenerateResponse × RunTrace :=
  let _ := bug
  let _ := options
  match guardedRun env parse model frontend_prompt frontend_schema with
  | (.error e, t) => (.error e, t)
  | (.ok v, t) => (.ok (generateDecode v), t)

/-- `refine_response` (lines 341–382). -/
def refine_response (env : CliEnv) (parse : String → Option Json) (bug : Json)
    (current_response user_instruction : String) (context : Json)
    (model : String) (frontend_prompt frontend_schema : Option String) :
    Except ErrorResponse RefineResponse × RunTrace :=
  let _ := bug
  let _ := user_instruction
  let _ := context
  match guardedRun env parse model frontend_prompt frontend_schema with
  | (.error e, t) => (.error e, t)
  | (.ok v, t) => (.ok (refineDecode current_response v), t)

/-- `generate_testpage` (lines 386–421). -/
def generate_testpage (env : CliEnv) (parse : String → Option Json) (bug : Json)
    (model : String) (frontend_prompt frontend_schema : Option String) :
    Except ErrorResponse TestPageResponse × RunTrace :=
  let _ := bug
  match guardedRun env parse model frontend_prompt frontend_schema with
  | (.error e, t) => (.error e, t)
  | (.ok v, t) => (.ok (testpageDecode v), t)

/-! ### Concrete sample inputs used by the closed evaluation theorems -/

/-- A result-typed envelope line carrying payload `1`. -/
def cliSampleResultOne : Json :=
  Json.obj [("type", Json.str "result"),
            ("result", Json.obj [("structured_output", Json.num 1)])]

/-- A result-typed envelope line carrying payload `2`. -/
def cliSampleResultTwo : Json :=
  Json.obj [("type", Json.str "result"),
            ("result", Json.obj [("structured_output", Json.num 2)])]

/-- A stub string-level parse mapping line `A` and line `B` to two
result-typed envelopes with different payloads. -/
def cliSampleParse : String → Option Json := fun s =>
  if s = "A" then some cliSampleResultOne
  else if s = "B" then some cliSampleResultTwo
  else none

/-- A stub string-level parse on whose domain nothing is valid JSON. -/
def parseNothing : String → Option Json := fun _ => none

/-- A bare object wrapping a payload under `structured_output`. -/
def wholeObjSample : Json := Json.obj [("structured_output", Json.num 3)]

/-- A stub parse under which no single line is valid JSON but the entire
two-line text parses to `wholeObjSample`. -/
def parseWholeText : String → Option Json := fun s =>
  if s = "W1\nW2" then some wholeObjSample else none

/-- Fields of a bare direct-answer object: a recognized marker key
`final_response` and no `structured_output`. -/
def directFieldsSample : List (String × Json) :=
  [("final_response", Json.str "ok"), ("used_canned_id", Json.str "c1")]

/-- A stub parse mapping the whole text `FA` to the direct-answer object. -/
def parseDirect : String → Option Json := fun s =>
  if s = "FA" then some (Json.obj directFieldsSample) else none

/-- Fields of an object carrying both `structured_output` and a marker key. -/
def precFieldsSample : List (String × Json) :=
  [("structured_output", Json.num 7), ("final_response", Json.str "ok")]

/-- A stub parse mapping the whole text `FB` to the
`structured_output`-plus-marker object. -/
def parsePrec : String → Option Json := fun s =>
  if s = "FB" then some (Json.obj precFieldsSample) else none

/-- An environment whose subprocess runs but exits with non-zero status. -/
def envStatusFail : CliEnv :=
  { spawn_ok := true, spawn_err := "", write_ok := true, write_err := ""
  , wait_ok := true, wait_err := "", status_success := false
  , stdout := "partial stdout", stderr := "the stderr text" }

/-- An environment whose stdin write fails mid-flight. -/
def envWriteFail : CliEnv :=
  { spawn_ok := true, spawn_err := "", write_ok := false, write_err := "broken pipe"
  , wait_ok := true, wait_err := "", status_success := true
  , stdout := "", stderr := "" }

/-- An environment whose subprocess succeeds and prints the single envelope
line `A`. -/
def envAllOk : CliEnv :=
  { spawn_ok := true, spawn_err := "", write_ok := true, write_err := ""
  , wait_ok := true, wait_err := "", status_success := true
  , stdout := "A", stderr := "" }

/-- A well-formed classify `suggested_actions` element. -/
def goodTriageItem : Json :=
  Json.obj [("action", Json.str "close"), ("reason", Json.str "duplicate")]

/-- A malformed classify `suggested_actions` element (no string `action`). -/
def badTriageItem : Json := Json.obj [("reason", Json.str "missing action")]

/-- An answer object with no boolean fields and a half-malformed
`suggested_actions` array. -/
def classifySample : Json :=
  Json.obj [("suggested_actions", Json.arr [goodTriageItem, badTriageItem])]

/-- A well-formed generate `suggested_actions` element. -/
def goodGenItem : Json := Json.obj [("action", Json.str "needinfo")]

/-- A malformed generate `suggested_actions` element (not even an object). -/
def badGenItem : Json := Json.str "oops"

/-- An answer object with a half-malformed generate `suggested_actions`
array. -/
def generateSample : Json :=
  Json.obj [("suggested_actions", Json.arr [goodGenItem, badGenItem])]

/-- The empty answer object. -/
def emptyObjSample : Json := Json.obj []

/-- An answer object with an empty-string `suggested_canned_id` and a
non-string `draft_response`. -/
def cannedIdSample : Json :=
  Json.obj [("suggested_canned_id", Json.str ""), ("draft_response", Json.num 5)]

/-! ### Theorems -/

/-- The scan returns the contribution of the first line that yields one, once
every earlier line has been skipped. -/
theorem lineScan_append_of_skipped (parse : String → Option Json)
    (pre rest : List String) (l : String) (v : Json)
    (hpre : ∀ x ∈ pre, lineResult parse x = none)
    (hl : lineResult parse l = some v) :
    lineScan parse (pre ++ l :: rest) = some v := by
  induction pre with
  | nil => simp [lineScan, hl]
  | cons a as ih =>
    have ha : lineResult parse a = none := hpre a (by simp)
    simp only [List.cons_append, lineScan, ha]
    exact ih (fun x hx => hpre x (by simp [hx]))

/-- C1: line-scan pass with first-match policy.  For every captured stdout
text whose Rust line split decomposes as a prefix of skipped lines (blank or
failing the envelope decode or not result-typed with a `structured_output`)
followed by a first matching line, the extractor returns that line's nested
`structured_output` value — whatever result-typed lines follow later. -/
theorem claim_C1 (parse : String → Option Json) (stdout : String)
    (pre rest : List String) (l : String) (v : Json)
    (hsplit : rustLines stdout = pre ++ l :: rest)
    (hpre : ∀ x ∈ pre, lineResult parse x = none)
    (hl : lineResult parse l = some v) :
    run_claude_cli_extract parse stdout = .ok v := by
  unfold run_claude_cli_extract
  rw [hsplit, lineScan_append_of_skipped parse pre rest l v hpre hl]

/-- C1 witness: a two-line output whose lines decode to result-typed
envelopes with the distinct payloads `1` and `2`; the extractor returns the
payload of the first line. -/
theorem claim_C1_witness :
    lineResult cliSampleParse "B" = some (Json.num 2) ∧
    Json.num 1 ≠ Json.num 2 ∧
    run_claude_cli_extract cliSampleParse "A\nB" = .ok (Json.num 1) := by
  refine ⟨rfl, by simp, ?_⟩
  exact claim_C1 cliSampleParse "A\nB" [] ["B"] "A" (Json.num 1) rfl
    (by intro x hx; cases hx) rfl

/-- C2: whole-text fallback.  When no line matched the scan and the entire
captured text parses to a JSON object containing the key `structured_output`,
the extractor returns the value under that key. -/
theorem claim_C2 (parse : String → Option Json) (stdout : String)
    (fields : List (String × Json)) (v : Json)
    (h1 : lineScan parse (rustLines stdout) = none)
    (h2 : parse stdout = some (Json.obj fields))
    (h3 : jlookup fields "structured_output" = some v) :
    run_claude_cli_extract parse stdout = .ok v := by
  simp [run_claude_cli_extract, h1, wholeTextStep, h2, Json.asObject, h3]

/-- C2 witness: two lines that are not individually valid JSON, while the
entire text parses to an object wrapping payload `3` under
`structured_output`. -/
theorem claim_C2_witness :
    run_claude_cli_extract parseWholeText "W1\nW2" = .ok (Json.num 3) := by
  exact claim_C2 parseWholeText "W1\nW2" [("structured_output", Json.num 3)]
    (Json.num 3) rfl rfl rfl

/-- C3: direct-shape fallback and its precedence.  When no line matched the
scan and the entire captured text parses to a JSON object, then: if the
object lacks `structured_output` but carries one of the marker keys
`ai_detected_str`, `final_response`, `suggested_response_id`, the extractor
returns the object itself unchanged; and if the object does carry
`structured_output`, the value under that key is returned even when marker
keys are also present. -/
theorem claim_C3 (parse : String → Option Json) (stdout : String)
    (fields : List (String × Json))
    (h1 : lineScan parse (rustLines stdout) = none)
    (h2 : parse stdout = some (Json.obj fields)) :
    (jlookup fields "structured_output" = none →
      ((jlookup fields "ai_detected_str").isSome ∨
        (jlookup fields "final_response").isSome ∨
        (jlookup fields "suggested_response_id").isSome) →
      run_claude_cli_extract parse stdout = .ok (Json.obj fields)) ∧
    (∀ v, jlookup fields "structured_output" = some v →
      ((jlookup fields "ai_detected_str").isSome ∨
        (jlookup fields "final_response").isSome ∨
        (jlookup fields "suggested_response_id").isSome) →
      run_claude_cli_extract parse stdout = .ok v) := by
  constructor
  · intro hso hmarker
    rcases hmarker with hm | hm | hm <;>
      simp [run_claude_cli_extract, h1, wholeTextStep, h2, Json.asObject, hso, hm]
  · intro v hso hmarker
    simp [run_claude_cli_extract, h1, wholeTextStep, h2, Json.asObject, hso]

/-- C3 witness: a bare marker-keyed object is returned unchanged, and an
object carrying both `structured_output` and a marker key yields the value
under `structured_output`. -/
theorem claim_C3_witness :
    run_claude_cli_extract parseDirect "FA" = .ok (Json.obj directFieldsSample) ∧
    run_claude_cli_extract parsePrec "FB" = .ok (Json.num 7) := by
  constructor
  · exact (claim_C3 parseDirect "FA" directFieldsSample rfl rfl).1 rfl
      (Or.inr (Or.inl (by simp [directFieldsSample, jlookup])))
  · exact (claim_C3 parsePrec "FB" precFieldsSample rfl rfl).2 (Json.num 7) rfl
      (Or.inr (Or.inl (by simp [precFieldsSample, jlookup])))

/-- C4: definitive extraction failure.  When the line scan yields nothing and
the whole-text step (whole-text fallback plus direct-shape fallback) yields
nothing, the call returns the extraction error, whose diagnostic detail is
`Output: ` followed by the full original captured stdout text — in
particular the detail contains that text. -/
theorem claim_C4 (parse : String → Option Json) (stdout : String)
    (h1 : lineScan parse (rustLines stdout) = none)
    (h2 : wholeTextStep parse stdout = none) :
    run_claude_cli_extract parse stdout =
      .error { error := "Failed to parse Claude CLI output"
             , details := some ("Output: " ++ stdout) } ∧
    ∃ p, "Output: " ++ stdout = p ++ stdout := by
  refine ⟨?_, "Output: ", rfl⟩
  simp [run_claude_cli_extract, h1, h2]

/-- C4 witness: an output matching none of the three shapes fails with the
extraction error carrying the original text. -/
theorem claim_C4_witness :
    run_claude_cli_extract parseNothing "plain chatter" =
      .error { error := "Failed to parse Claude CLI output"
             , details := some "Output: plain chatter" } := by
  exact (claim_C4 parseNothing "plain chatter" rfl rfl).1

/-- C5: non-zero exit handling.  When spawn, stdin write and wait all succeed
but the subprocess reports a non-zero status, the call fails with the
non-zero-exit error whose diagnostic detail is the captured stderr text
verbatim — and the outcome is the same whatever the captured stdout text is,
so no extraction is attempted on it. -/
theorem claim_C5 (env : CliEnv) (parse : String → Option Json)
    (prompt schema model : String)
    (h1 : env.spawn_ok = true) (h2 : env.write_ok = true)
    (h3 : env.wait_ok = true) (h4 : env.status_success = false) :
    ∀ s : String,
      (run_claude_cli { env with stdout := s } parse prompt schema model).1 =
        .error { error := "Claude CLI execution failed"
               , details := some env.stderr } := by
  intro s
  obtain ⟨so, se, wo, we, ko, ke, ss, sout, serr⟩ := env
  simp only at h1 h2 h3 h4
  subst h1 h2 h3 h4
  simp [run_claude_cli]

/-- C5 witness: a non-zero exit with stdout holding a perfectly good result
line still fails with the stderr text as detail. -/
theorem claim_C5_witness :
    (run_claude_cli { envStatusFail with stdout := "A" } cliSampleParse
        "p" "sch" "m").1 =
      .error { error := "Claude CLI execution failed"
             , details := some "the stderr text" } := by
  exact claim_C5 envStatusFail cliSampleParse "p" "sch" "m" rfl rfl rfl rfl "A"

/-- C7: invocation shape.  Whenever spawn is attempted and succeeds, exactly
one command is handed to the OS: the `claude` binary with the argument
sequence `-p --output-format json --model <model> --json-schema <schema>` and
all three standard streams piped; when the stdin write also succeeds the
prompt text is written to the child's stdin and the handle is closed; and
when the stdin write fails the call returns the transport error carrying the
write failure, never the extraction ("parse") error. -/
theorem claim_C7 (env : CliEnv) (parse : String → Option Json)
    (prompt schema model : String)
    (h1 : env.spawn_ok = true) :
    (run_claude_cli env parse prompt schema model).2.spawn_attempts =
      [{ program := "claude"
       , args := ["-p", "--output-format", "json", "--model", model,
                  "--json-schema", schema]
       , stdin_cfg := .piped, stdout_cfg := .piped, stderr_cfg := .piped }] ∧
    (env.write_ok = true →
      (run_claude_cli env parse prompt schema model).2.stdin_written = [prompt] ∧
      (run_claude_cli env parse prompt schema model).2.stdin_closed = true) ∧
    (env.write_ok = false →
      (run_claude_cli env parse prompt schema model).1 =
        .error { error := "Failed to write to claude CLI"
               , details := some env.write_err } ∧
      ∀ d, (run_claude_cli env parse prompt schema model).1 ≠
        .error { error := "Failed to parse Claude CLI output", details := d }) := by
  obtain ⟨so, se, wo, we, ko, ke, ss, sout, serr⟩ := env
  simp only at h1
  subst h1
  cases wo with
  | false =>
    refine ⟨by simp [run_claude_cli, buildClaudeCommand], by simp, ?_⟩
    intro _
    refine ⟨by simp [run_claude_cli], ?_⟩
    intro d
    simp [run_claude_cli]
  | true =>
    cases ko with
    | false =>
      exact ⟨by simp [run_claude_cli, buildClaudeCommand],
        fun _ => by simp [run_claude_cli], fun h => by cases h⟩
    | true =>
      cases ss with
      | false =>
        exact ⟨by simp [run_claude_cli, buildClaudeCommand],
          fun _ => by simp [run_claude_cli], fun h => by cases h⟩
      | true =>
        exact ⟨by simp [run_claude_cli, buildClaudeCommand],
          fun _ => by simp [run_claude_cli], fun h => by cases h⟩

/-- C7 witness: on a successful run the exact command, the written prompt and
the closed stdin are all observable; on a failed write the transport error is
returned. -/
theorem claim_C7_witness :
    (run_claude_cli envAllOk cliSampleParse "the prompt" "sch" "m").2.spawn_attempts =
      [{ program := "claude"
       , args := ["-p", "--output-format", "json", "--model", "m",
                  "--json-schema", "sch"]
       , stdin_cfg := .piped, stdout_cfg := .piped, stderr_cfg := .piped }] ∧
    (run_claude_cli envAllOk cliSampleParse "the prompt" "sch" "m").2.stdin_written =
      ["the prompt"] ∧
    (run_claude_cli envAllOk cliSampleParse "the prompt" "sch" "m").2.stdin_closed =
      true ∧
    (run_claude_cli envWriteFail cliSampleParse "the prompt" "sch" "m").1 =
      .error { error := "Failed to write to claude CLI"
             , details := some "broken pipe" } := by
  have hT := claim_C7 envAllOk cliSampleParse "the prompt" "sch" "m" rfl
  have hF := claim_C7 envWriteFail cliSampleParse "the prompt" "sch" "m" rfl
  exact ⟨hT.1, (hT.2.1 rfl).1, (hT.2.1 rfl).2, (hF.2.2 rfl).1⟩

/-- The shared prompt/schema guard: when the frontend omits the prompt or the
schema, the guard short-circuits with the corresponding missing-input error
and an empty trace (nothing was spawned). -/
theorem guardedRun_missing (env : CliEnv) (parse : String → Option Json)
    (model : String) (fp fs : Option String)
    (h : fp = none ∨ fs = none) :
    (guardedRun env parse model fp fs).2 = emptyTrace ∧
    ∃ e, (guardedRun env parse model fp fs).1 = .error e ∧
      (e.error = "Missing prompt from frontend" ∨
        e.error = "Missing schema from frontend") := by
  rcases h with h | h
  · subst h
    exact ⟨rfl, missingPromptError, rfl, Or.inl rfl⟩
  · subst h
    cases fp with
    | none => exact ⟨rfl, missingPromptError, rfl, Or.inl rfl⟩
    | some p => exact ⟨rfl, missingSchemaError, rfl, Or.inr rfl⟩

/-- C6 (amended): caller-input rejection before spawning, for an absent
prompt or schema.  Every endpoint whose frontend-supplied prompt or schema is
absent fails with one of the two missing-input errors, and its trace is the
empty trace — no command was handed to spawn.  (A present-but-empty prompt or
schema is not rejected; see the counterexample.) -/
theorem claim_C6_amended (env : CliEnv) (parse : String → Option Json)
    (bug options context : Json) (canned : List Json)
    (cur instr model : String) (fp fs : Option String)
    (h : fp = none ∨ fs = none) :
    ((classify_bug env parse bug model fp fs).2 = emptyTrace ∧
      ∃ e, (classify_bug env parse bug model fp fs).1 = .error e ∧
        (e.error = "Missing prompt from frontend" ∨
          e.error = "Missing schema from frontend")) ∧
    ((suggest_response env parse bug canned model fp fs).2 = emptyTrace ∧
      ∃ e, (suggest_response env parse bug canned model fp fs).1 = .error e ∧
        (e.error = "Missing prompt from frontend" ∨
          e.error = "Missing schema from frontend")) ∧
    ((generate_response env parse bug options model fp fs).2 = emptyTrace ∧
      ∃ e, (generate_response env parse bug options model fp fs).1 = .error e ∧
        (e.error = "Missing prompt from frontend" ∨
          e.error = "Missing schema from frontend")) ∧
    ((refine_response env parse bug cur instr context model fp fs).2 = emptyTrace ∧
      ∃ e, (refine_response env parse bug cur instr context model fp fs).1 = .error e ∧
        (e.error = "Missing prompt from frontend" ∨
          e.error = "Missing schema from frontend")) ∧
    ((generate_testpage env parse bug model fp fs).2 = emptyTrace ∧
      ∃ e, (generate_testpage env parse bug model fp fs).1 = .error e ∧
        (e.error = "Missing prompt from frontend" ∨
          e.error = "Missing schema from frontend")) := by
  obtain ⟨ht, e, he, hmsg⟩ := guardedRun_missing env parse model fp fs h
  have hq : guardedRun env parse model fp fs = (.error e, emptyTrace) :=
    Prod.ext he ht
  refine ⟨⟨?_, e, ?_, hmsg⟩, ⟨?_, e, ?_, hmsg⟩, ⟨?_, e, ?_, hmsg⟩,
    ⟨?_, e, ?_, hmsg⟩, ⟨?_, e, ?_, hmsg⟩⟩ <;>
    simp [classify_bug, suggest_response, generate_response, refine_response,
      generate_testpage, hq]

/-- C6 counterexample: the claim as stated is false for a present-but-empty
prompt.  With an empty prompt and a healthy environment, `classify_bug` does
spawn the subprocess (the trace records the command) and even succeeds — it
does not fail with a caller-input error and a process is started. -/
theorem claim_C6_cex :
    (classify_bug envAllOk cliSampleParse Json.null "m"
        (some "") (some "sch")).2.spawn_attempts =
      [buildClaudeCommand "m" "sch"] ∧
    (classify_bug envAllOk cliSampleParse Json.null "m"
        (some "") (some "sch")).1 =
      .ok { ai_detected_str := false, ai_detected_test_attached := false
          , crashstack_present := false, fuzzing_testcase := false
          , summary := "", suggested_severity := none
          , suggested_priority := none, suggested_actions := []
          , triage_reasoning := none, suggested_canned_id := none
          , draft_response := none, notes := none } := by
  exact ⟨rfl, rfl⟩

/-- C6 witness: with the prompt absent, `classify_bug` rejects the call with
a missing-input error and its trace is empty — nothing was spawned. -/
theorem claim_C6_witness :
    (classify_bug envAllOk cliSampleParse Json.null "m" none (some "sch")).2 =
      emptyTrace ∧
    ∃ e, (classify_bug envAllOk cliSampleParse Json.null "m"
        none (some "sch")).1 = .error e ∧
      (e.error = "Missing prompt from frontend" ∨
        e.error = "Missing schema from frontend") := by
  exact (claim_C6_amended envAllOk cliSampleParse Json.null Json.null Json.null
    [] "c" "i" "m" none (some "sch") (Or.inl rfl)).1

/-- C8: defensive decoding of booleans and arrays.  Every classify boolean
field that is absent or not a boolean decodes as `false`, and a
`suggested_actions` array holding one well-formed and one malformed element
decodes — in the classify decoder and in the generate decoder alike — to the
list holding only the well-formed element. -/
theorem claim_C8 (v w : Json) (g b g2 b2 : Json) (a : TriageAction)
    (a2 : SuggestedAction)
    (h1 : (v.get? "ai_detected_str").bind Json.asBool = none)
    (h2 : (v.get? "ai_detected_test_attached").bind Json.asBool = none)
    (h3 : (v.get? "crashstack_present").bind Json.asBool = none)
    (h4 : (v.get? "fuzzing_testcase").bind Json.asBool = none)
    (h5 : v.get? "suggested_actions" = some (Json.arr [g, b]))
    (h6 : decodeTriageAction g = some a)
    (h7 : decodeTriageAction b = none)
    (h8 : w.get? "suggested_actions" = some (Json.arr [g2, b2]))
    (h9 : decodeSuggestedAction g2 = some a2)
    (h10 : decodeSuggestedAction b2 = none) :
    (classifyDecode v).ai_detected_str = false ∧
    (classifyDecode v).ai_detected_test_attached = false ∧
    (classifyDecode v).crashstack_present = false ∧
    (classifyDecode v).fuzzing_testcase = false ∧
    (classifyDecode v).suggested_actions = [a] ∧
    (generateDecode w).suggested_actions = [a2] := by
  simp [classifyDecode, generateDecode, h1, h2, h3, h4, h5, h6, h7, h8, h9,
    h10, Json.asArray]

/-- C8 witness: an object with no boolean fields and a half-malformed action
array decodes to all-false booleans and a one-element action list, in both
the classify and generate decoders. -/
theorem claim_C8_witness :
    (classifyDecode classifySample).ai_detected_str = false ∧
    (classifyDecode classifySample).ai_detected_test_attached = false ∧
    (classifyDecode classifySample).crashstack_present = false ∧
    (classifyDecode classifySample).fuzzing_testcase = false ∧
    (classifyDecode classifySample).suggested_actions =
      [{ action := "close", reason := "duplicate" }] ∧
    (generateDecode generateSample).suggested_actions =
      [{ action := "needinfo", reason := none }] := by
  exact claim_C8 classifySample generateSample goodTriageItem badTriageItem
    goodGenItem badGenItem { action := "close", reason := "duplicate" }
    { action := "needinfo", reason := none }
    rfl rfl rfl rfl rfl rfl rfl rfl rfl rfl

/-- C9 counterexample: the claim as stated is false for the
`refined_response` field of the refine decoder.  On an answer object lacking
`refined_response`, the decoded field equals the caller-supplied current
response, which is not the empty string. -/
theorem claim_C9_cex :
    (refineDecode "previous draft" emptyObjSample).refined_response =
      "previous draft" ∧
    "previous draft" ≠ "" := by
  exact ⟨rfl, by decide⟩

/-- C9 (amended): defensive decoding of strings.  A required string field
that is absent or of the wrong type decodes as the empty string in the
suggest, generate, classify and testpage decoders; the `refined_response`
field of the refine decoder instead falls back to the caller-supplied
current response text. -/
theorem claim_C9_amended (v w x y z : Json) (cur : String)
    (h1 : (v.get? "suggested_response_id").bind Json.asStr = none)
    (h2 : (v.get? "draft_response").bind Json.asStr = none)
    (h3 : (w.get? "response_text").bind Json.asStr = none)
    (h4 : (w.get? "reasoning").bind Json.asStr = none)
    (h5 : (x.get? "summary").bind Json.asStr = none)
    (h6 : (y.get? "html_content").bind Json.asStr = none)
    (h7 : (y.get? "reason").bind Json.asStr = none)
    (h8 : (z.get? "refined_response").bind Json.asStr = none) :
    (suggestDecode v).suggested_response_id = "" ∧
    (suggestDecode v).draft_response = "" ∧
    (generateDecode w).response_text = "" ∧
    (generateDecode w).reasoning = "" ∧
    (classifyDecode x).summary = "" ∧
    (testpageDecode y).html_content = "" ∧
    (testpageDecode y).reason = "" ∧
    (refineDecode cur z).refined_response = cur := by
  simp [suggestDecode, generateDecode, classifyDecode, testpageDecode,
    refineDecode, h1, h2, h3, h4, h5, h6, h7, h8]

/-- C9 witness: on the empty answer object every decoded string field is the
empty string, while the refine decoder keeps the supplied current
response. -/
theorem claim_C9_witness :
    (suggestDecode emptyObjSample).suggested_response_id = "" ∧
    (suggestDecode emptyObjSample).draft_response = "" ∧
    (generateDecode emptyObjSample).response_text = "" ∧
    (generateDecode emptyObjSample).reasoning = "" ∧
    (classifyDecode emptyObjSample).summary = "" ∧
    (testpageDecode emptyObjSample).html_content = "" ∧
    (testpageDecode emptyObjSample).reason = "" ∧
    (refineDecode "keep me" emptyObjSample).refined_response = "keep me" := by
  exact claim_C9_amended emptyObjSample emptyObjSample emptyObjSample
    emptyObjSample emptyObjSample "keep me" rfl rfl rfl rfl rfl rfl rfl rfl

/-- C10: in the classify decoder the optional fields `suggested_canned_id`
and `draft_response` decode as absent not only when the field is missing or
non-string but also when it is present with the empty-string value. -/
theorem claim_C10 (v : Json)
    (h1 : (v.get? "suggested_canned_id").bind Json.asStr = none ∨
          (v.get? "suggested_canned_id").bind Json.asStr = some "")
    (h2 : (v.get? "draft_response").bind Json.asStr = none ∨
          (v.get? "draft_response").bind Json.asStr = some "") :
    (classifyDecode v).suggested_canned_id = none ∧
    (classifyDecode v).draft_response = none := by
  have hempty : "".isEmpty = true := rfl
  constructor
  · rcases h1 with h | h <;> simp [classifyDecode, h, hempty]
  · rcases h2 with h | h <;> simp [classifyDecode, h, hempty]

/-- C10 witness: an empty-string `suggested_canned_id` and a non-string
`draft_response` both decode as absent. -/
theorem claim_C10_witness :
    (classifyDecode cannedIdSample).suggested_canned_id = none ∧
    (classifyDecode cannedIdSample).draft_response = none := by
  exact claim_C10 cannedIdSample (Or.inr rfl) (Or.inl rfl)
